import Mathlib

/-!
Shallow embedding of the `ssl-expiration` crate (src/lib.rs and src/main.rs).

The effectful parts of `SslExpiration::from_addr` (OpenSSL context creation,
TCP connection, TLS handshake, peer-certificate retrieval, clock sampling) are
modelled by an environment record `NetEnv` whose fields give the outcome of
each external call; the control flow, error mapping and arithmetic of the
Rust code are embedded literally.  Machine integers: the `secs` field of
`SslExpiration` is a Rust `i32`, and the arithmetic
`from_now.days * 24 * 60 * 60 + from_now.secs` is modelled with two's
complement wrapping at width 32 (release-profile Rust semantics), written
`wrap32` below.  Rust's truncating integer division on `i32` is `Int.tdiv`.
-/

/-- Two's complement wrapping of an unbounded integer into the `i32` range
`[-2^31, 2^31)`, the release-mode semantics of Rust `i32` arithmetic. -/
def wrap32 (x : Int) : Int := (x + 2 ^ 31) % 2 ^ 32 - 2 ^ 31

/-- The result struct of lib.rs: `pub struct SslExpiration { secs: i32, alt_names: Vec<String> }`.
The field projections `secs` and `alt_names` double as the accessor methods. -/
structure SslExpiration where
  secs : Int
  alt_names : List String
deriving DecidableEq, Repr

/-- `SslExpiration::days`: `self.secs / 60 / 60 / 24` with Rust truncating
`i32` division (no overflow is possible here since the divisors are positive). -/
def SslExpiration.days (e : SslExpiration) : Int :=
  ((e.secs.tdiv 60).tdiv 60).tdiv 24

/-- `SslExpiration::is_expired`: `self.secs < 0`. -/
def SslExpiration.is_expired (e : SslExpiration) : Bool :=
  decide (e.secs < 0)

/-- Modelled from the spec: lib.rs declares no alternative-names accessor,
although main.rs calls `expiration.get_alt_names()` and the spec lists an
"alternative-names list" result accessor.  The missing method is modelled,
following the spec, as returning the stored ordered sequence of names. -/
def SslExpiration.get_alt_names (e : SslExpiration) : List String :=
  e.alt_names

/-- One entry of the certificate's subject-alternative-name extension.
`dnsName` models a DNS-type entry; `otherEntry` models any non-DNS entry
(IP address, email, URI, ...), for which openssl's `GeneralName::dnsname()`
returns `None`. -/
inductive GeneralName where
  | dnsName (s : String)
  | otherEntry
deriving DecidableEq, Repr

/-- `GeneralName::dnsname()`: `Some` of the string for a DNS entry, `None` otherwise. -/
def GeneralName.dnsname : GeneralName → Option String
  | .dnsName s => some s
  | .otherEntry => none

instance {ε α : Type} [DecidableEq ε] [DecidableEq α] : DecidableEq (Except ε α)
  | .ok a, .ok b =>
    if h : a = b then isTrue (by subst h; rfl)
    else isFalse (fun hc => h (Except.ok.inj hc))
  | .ok _, .error _ => isFalse (fun hc => Except.noConfusion hc)
  | .error _, .ok _ => isFalse (fun hc => Except.noConfusion hc)
  | .error e, .error f =>
    if h : e = f then isTrue (by subst h; rfl)
    else isFalse (fun hc => h (Except.error.inj hc))

/-- The fields of the peer `X509` certificate that lib.rs reads.  Times are
unix timestamps in seconds.  `public_key` is the outcome of
`X509::public_key()`, a `Result` in the openssl crate (it fails e.g. for an
unsupported key algorithm); the key payload itself is irrelevant here. -/
structure X509Cert where
  not_before : Int
  not_after : Int
  subject_alt_names : Option (List GeneralName)
  public_key : Except String Unit
deriving DecidableEq, Repr

/-- `openssl::ssl::SslVerifyMode` is a bitflag set; modelled as a `Nat` bitmask.
`SslVerifyMode::empty()` is the empty flag set, bitmask `0`. -/
def SslVerifyMode.empty : Nat := 0

/-- The error kinds generated by the `error_chain!` block of lib.rs:
`Msg` (from a plain `&str`, used by `.ok_or("Certificate not found")`),
the two foreign links `OpenSslErrorStack` and `IoError`, and the custom
`HandshakeError(String)`. -/
inductive ErrorKind where
  | Msg (s : String)
  | OpenSslErrorStack (s : String)
  | IoError (s : String)
  | HandshakeError (s : String)
deriving DecidableEq, Repr

/-- The observable outcome of running a fallible Rust function: a normal
return (`ok`/`err`, the two sides of `Result`) or a process-aborting
panic (reachable through `.unwrap()`). -/
inductive Outcome (α : Type) where
  | ok (a : α)
  | err (e : ErrorKind)
  | panicked (msg : String)
deriving DecidableEq, Repr

/-- Events recorded while running `from_addr`, used to observe the
verify-mode configuration of the TLS session.  `set_verify m` records
`context.set_verify(m)`; `handshake_driven m` records that the handshake was
driven on a session whose context carries verify mode `m`. -/
inductive Event where
  | set_verify (mode : Nat)
  | handshake_driven (mode : Nat)
deriving DecidableEq, Repr

/-- The environment of one `from_addr` call: the outcome of every external
effect the code performs, in program order.  `tcp_connect` is a function of
the address string passed to `TcpStream::connect`.  `days_from_now` is the
outcome of `Asn1Time::days_from_now(0)`, i.e. the sampled "now" timestamp. -/
structure NetEnv where
  ssl_context_builder : Except String Unit
  ssl_new : Except String Unit
  tcp_connect : String → Except String Unit
  handshake : Except String Unit
  peer_certificate : Option X509Cert
  days_from_now : Except String Int

/-- The day/second split returned by `Asn1Time::diff` (openssl `TimeDiff`):
a day count and a residual second count, each signed, with matching signs
and `|secs| < 86400`. -/
structure TimeDiff where
  days : Int
  secs : Int
deriving DecidableEq, Repr

/-- `now.diff(t)` for `Asn1Time`s holding unix timestamps `now` and `t`:
OpenSSL's `ASN1_TIME_diff` computes the exact difference `t - now` split as
`days` whole days plus `secs` residual seconds, both truncated toward zero
(signs match the sign of the difference).  On our integer timestamps the
underlying C call cannot fail, so the model is total. -/
def asn1_diff (now t : Int) : TimeDiff :=
  { days := (t - now).tdiv 86400, secs := (t - now).tmod 86400 }

/-- Embedding of `SslExpiration::from_addr` (lib.rs lines 43-73).  Returns the
event trace together with the outcome.  Each `?` of the Rust code becomes a
`match` on the corresponding `NetEnv` field, mapped to the error kind the
`error_chain` conversions produce.  The `println!` debug output and the
unused `not_before`/`verify` reads have no observable effect and are not
modelled, except that `cert.public_key().unwrap()` panics when
`public_key()` fails.  The stored seconds are
`from_now.days * 24 * 60 * 60 + from_now.secs` computed in wrapping `i32`
arithmetic, each binary operation wrapping in turn. -/
def SslExpiration.from_addr (addr : String) (env : NetEnv) :
    List Event × Outcome SslExpiration :=
  match env.ssl_context_builder with
  | .error e => ([], .err (.OpenSslErrorStack e))
  | .ok _ =>
    -- `context.set_verify(SslVerifyMode::empty())`; the built context keeps this mode.
    let context_verify_mode : Nat := SslVerifyMode.empty
    let events := [Event.set_verify context_verify_mode]
    match env.ssl_new with
    | .error e => (events, .err (.OpenSslErrorStack e))
    | .ok _ =>
      match env.tcp_connect addr with
      | .error e => (events, .err (.IoError e))
      | .ok _ =>
        let events := events ++ [Event.handshake_driven context_verify_mode]
        match env.handshake with
        | .error e => (events, .err (.HandshakeError e))
        | .ok _ =>
          match env.peer_certificate with
          | none => (events, .err (.Msg "Certificate not found"))
          | some cert =>
            let alt_names :=
              match cert.subject_alt_names with
              | some names => names.filterMap GeneralName.dnsname
              | none => []
            match env.days_from_now with
            | .error e => (events, .err (.OpenSslErrorStack e))
            | .ok now =>
              let from_now := asn1_diff now cert.not_after
              match cert.public_key with
              | .error e => (events, .panicked e)
              | .ok _ =>
                (events, .ok { secs := wrap32 (wrap32 (wrap32 (wrap32 (from_now.days * 24) * 60) * 60) + from_now.secs),
                               alt_names := alt_names })

/-- Embedding of `SslExpiration::from_domain_name`:
`SslExpiration::from_addr(format!("{}:443", domain))`. -/
def SslExpiration.from_domain_name (domain : String) (env : NetEnv) :
    List Event × Outcome SslExpiration :=
  SslExpiration.from_addr (domain ++ ":443") env

/-- One iteration of the domain loop of main.rs, restricted to its effect on
`exit_code`: a successful check sets the code to `1` when the certificate is
expired or expires within 7 days, otherwise leaves it; a check returning an
error leaves it; a panicking check aborts the process before any exit. -/
def main_loop : List (Outcome SslExpiration) → Nat → Option Nat
  | [], exit_code => some exit_code
  | r :: rs, exit_code =>
    match r with
    | .panicked _ => none
    | .err _ => main_loop rs exit_code
    | .ok expiration =>
      if expiration.is_expired then main_loop rs 1
      else if expiration.days ≤ 7 then main_loop rs 1
      else main_loop rs exit_code

/-- The process exit status of main.rs, as a function of the per-domain
outcomes of `from_domain_name`, in argument order; `none` when a check
panicked, so that the process aborted without reaching `exit`. -/
def main_exit_code (results : List (Outcome SslExpiration)) : Option Nat :=
  main_loop results 0

/-! ### Arithmetic helper lemmas -/

theorem wrap32_congr {x y : Int} (h : x % 2 ^ 32 = y % 2 ^ 32) : wrap32 x = wrap32 y := by
  unfold wrap32; omega

theorem wrap32_emod (x : Int) : wrap32 x % 2 ^ 32 = x % 2 ^ 32 := by
  unfold wrap32; omega

theorem wrap32_mul_right (x c : Int) : wrap32 (wrap32 x * c) = wrap32 (x * c) := by
  apply wrap32_congr
  rw [Int.mul_emod, wrap32_emod, ← Int.mul_emod]

theorem wrap32_add_left (x y : Int) : wrap32 (wrap32 x + y) = wrap32 (x + y) := by
  apply wrap32_congr
  rw [Int.add_emod, wrap32_emod, ← Int.add_emod]

theorem wrap32_eq_self {x : Int} (h1 : -(2 ^ 31) ≤ x) (h2 : x < 2 ^ 31) : wrap32 x = x := by
  unfold wrap32; omega

/-- The wrapping evaluation of `days * 24 * 60 * 60 + secs` coincides with a
single wrap of the mathematical value `days * 86400 + secs`. -/
theorem wrap32_secs_formula (d s : Int) :
    wrap32 (wrap32 (wrap32 (wrap32 (d * 24) * 60) * 60) + s) = wrap32 (d * 86400 + s) := by
  have h1 : wrap32 (wrap32 (d * 24) * 60) = wrap32 (d * 24 * 60) := wrap32_mul_right _ _
  rw [h1]
  have h2 : wrap32 (wrap32 (d * 24 * 60) * 60) = wrap32 (d * 24 * 60 * 60) := wrap32_mul_right _ _
  rw [h2]
  have h3 : wrap32 (wrap32 (d * 24 * 60 * 60) + s) = wrap32 (d * 24 * 60 * 60 + s) :=
    wrap32_add_left _ _
  rw [h3]
  congr 1
  ring

/-- The day/second split of `asn1_diff` recomposes to the exact difference. -/
theorem asn1_diff_recompose (now t : Int) :
    (asn1_diff now t).days * 86400 + (asn1_diff now t).secs = t - now := by
  unfold asn1_diff
  simp only
  rw [mul_comm]
  exact Int.tdiv_add_tmod (t - now) 86400

/-- Rust's successive truncating divisions `/ 60 / 60 / 24` agree with one
truncating division by `86400`, for either sign of the dividend. -/
theorem tdiv_sixty_sixty_twentyfour (x : Int) :
    ((x.tdiv 60).tdiv 60).tdiv 24 = x.tdiv 86400 := by
  have hnat : ∀ n : Nat, (((Int.ofNat n).tdiv 60).tdiv 60).tdiv 24 = (Int.ofNat n).tdiv 86400 := by
    intro n
    show Int.ofNat (n / 60 / 60 / 24) = Int.ofNat (n / 86400)
    rw [Nat.div_div_eq_div_mul, Nat.div_div_eq_div_mul]
  match x with
  | .ofNat n => exact hnat n
  | .negSucc n =>
    have h : Int.negSucc n = -(Int.ofNat (n + 1)) := rfl
    simp only [h, Int.neg_tdiv, hnat]

/-! ### Claims about the result accessors -/

/-- C2: `is_expired()` returns true iff `secs()` is strictly negative, and in
particular a remaining-seconds value of exactly zero is not expired. -/
theorem is_expired_iff_secs_neg (e : SslExpiration) :
    (e.is_expired = true ↔ e.secs < 0) ∧ (e.secs = 0 → e.is_expired = false) := by
  constructor
  · simp [SslExpiration.is_expired]
  · intro h
    simp [SslExpiration.is_expired, h]

theorem is_expired_iff_secs_neg_witness :
    (SslExpiration.mk 0 []).is_expired = false :=
  (is_expired_iff_secs_neg (SslExpiration.mk 0 [])).2 rfl

/-- C3: `days()` equals `secs()` divided by 86400 with truncation toward
zero, for both signs of the stored seconds. -/
theorem days_eq_secs_tdiv_86400 (e : SslExpiration) :
    e.days = e.secs.tdiv 86400 := by
  unfold SslExpiration.days
  exact tdiv_sixty_sixty_twentyfour e.secs

/-! ### Characterization of the pipeline outcomes -/

/-- When every external step succeeds, `from_addr` returns `Ok` with the
wrapped recomposed second count and the filtered DNS alternative names. -/
theorem from_addr_success (addr : String) (env : NetEnv) (cert : X509Cert) (now : Int)
    (h1 : env.ssl_context_builder = .ok ()) (h2 : env.ssl_new = .ok ())
    (h3 : env.tcp_connect addr = .ok ()) (h4 : env.handshake = .ok ())
    (h5 : env.peer_certificate = some cert) (h6 : env.days_from_now = .ok now)
    (h7 : cert.public_key = .ok ()) :
    SslExpiration.from_addr addr env =
      ([Event.set_verify SslVerifyMode.empty, Event.handshake_driven SslVerifyMode.empty],
       .ok { secs := wrap32 ((asn1_diff now cert.not_after).days * 86400 +
                             (asn1_diff now cert.not_after).secs),
             alt_names := (cert.subject_alt_names.getD []).filterMap GeneralName.dnsname }) := by
  unfold SslExpiration.from_addr
  simp only [h1, h2, h3, h4, h5, h6, h7]
  rw [← wrap32_secs_formula]
  cases cert.subject_alt_names <;> simp

/-! ### Concrete certificates and environments for instantiation -/

/-- A certificate about 368 days from expiry with a mixed SAN extension. -/
def sample_cert : X509Cert :=
  { not_before := 1700000000
    not_after := 1792000000
    subject_alt_names := some [GeneralName.dnsName "example.org", GeneralName.otherEntry,
                               GeneralName.dnsName "www.example.org"]
    public_key := .ok () }

/-- An environment in which every external step succeeds ("now" is
2025-10-12, unix 1760227200). -/
def env_ok : NetEnv :=
  { ssl_context_builder := .ok ()
    ssl_new := .ok ()
    tcp_connect := fun _ => .ok ()
    handshake := .ok ()
    peer_certificate := some sample_cert
    days_from_now := .ok 1760227200 }

/-- A certificate whose `notAfter` lies 2160000000 seconds (25000 days,
about 68 years) after "now": the exact difference exceeds `i32::MAX`. -/
def overflow_cert : X509Cert :=
  { not_before := 1700000000
    not_after := 3920227200
    subject_alt_names := none
    public_key := .ok () }

/-- All steps succeed and the peer presents `overflow_cert`. -/
def env_overflow : NetEnv :=
  { ssl_context_builder := .ok ()
    ssl_new := .ok ()
    tcp_connect := fun _ => .ok ()
    handshake := .ok ()
    peer_certificate := some overflow_cert
    days_from_now := .ok 1760227200 }

/-! ### C1: the stored remaining-seconds value -/

/-- C1 (amended): for every successful call to `from_addr` whose exact
difference `notAfter - now` is representable in `i32`, the stored
remaining-seconds value equals the recomposition `days * 86400 + secs` of the
library's day/second split of the difference from the sampled "now" to
`notAfter`, and it is negative exactly when `notAfter` is already past. -/
theorem from_addr_secs_correct (addr : String) (env : NetEnv) (cert : X509Cert) (now : Int)
    (h1 : env.ssl_context_builder = .ok ()) (h2 : env.ssl_new = .ok ())
    (h3 : env.tcp_connect addr = .ok ()) (h4 : env.handshake = .ok ())
    (h5 : env.peer_certificate = some cert) (h6 : env.days_from_now = .ok now)
    (h7 : cert.public_key = .ok ())
    (hlo : -(2 ^ 31) ≤ cert.not_after - now) (hhi : cert.not_after - now < 2 ^ 31) :
    ∃ exp : SslExpiration, (SslExpiration.from_addr addr env).2 = .ok exp ∧
      exp.secs = (asn1_diff now cert.not_after).days * 86400 +
        (asn1_diff now cert.not_after).secs ∧
      (exp.secs < 0 ↔ cert.not_after < now) := by
  have hs := from_addr_success addr env cert now h1 h2 h3 h4 h5 h6 h7
  rw [asn1_diff_recompose, wrap32_eq_self hlo hhi] at hs
  refine ⟨⟨cert.not_after - now,
      (cert.subject_alt_names.getD []).filterMap GeneralName.dnsname⟩, ?_, ?_, ?_⟩
  · exact congrArg Prod.snd hs
  · rw [asn1_diff_recompose]
  · show cert.not_after - now < 0 ↔ cert.not_after < now
    omega

theorem from_addr_secs_correct_witness :
    ∃ exp : SslExpiration, (SslExpiration.from_addr "example.com:443" env_ok).2 = .ok exp ∧
      exp.secs = (asn1_diff 1760227200 sample_cert.not_after).days * 86400 +
        (asn1_diff 1760227200 sample_cert.not_after).secs ∧
      (exp.secs < 0 ↔ sample_cert.not_after < 1760227200) :=
  from_addr_secs_correct "example.com:443" env_ok sample_cert 1760227200
    rfl rfl rfl rfl rfl rfl rfl (by decide) (by decide)

/-- C1 counterexample: all steps succeed, the library day/second split of the
difference is (25000 days, 0 seconds), so the single signed second count of
the claim is 2160000000; yet the stored value is the wrapped `i32`
-2134967296, which differs from the claimed value and is negative although
`notAfter` (unix 3920227200) is far after "now" (unix 1760227200). -/
theorem from_addr_secs_overflow_counterexample :
    (SslExpiration.from_addr "example.com:443" env_overflow).2 =
      Outcome.ok { secs := -2134967296, alt_names := [] } ∧
    (asn1_diff 1760227200 overflow_cert.not_after).days = 25000 ∧
    (asn1_diff 1760227200 overflow_cert.not_after).secs = 0 ∧
    (asn1_diff 1760227200 overflow_cert.not_after).days * 86400 +
      (asn1_diff 1760227200 overflow_cert.not_after).secs = 2160000000 ∧
    ((-2134967296 : Int) ≠ 2160000000) ∧
    ((-2134967296 : Int) < 0) ∧ ¬ ((3920227200 : Int) < 1760227200) := by
  refine ⟨rfl, by decide, by decide, by decide, by decide, by decide, by decide⟩

/-! ### C4: the alternative-names sequence -/

/-- C4: every successful check yields a result whose alternative-names
accessor returns exactly the DNS-name entries of the certificate's SAN
extension, in extension order, with non-DNS entries discarded
(`List.filterMap GeneralName.dnsname`); a certificate without the extension
yields the empty sequence while the call still succeeds. -/
theorem from_addr_alt_names (addr : String) (env : NetEnv) (cert : X509Cert) (now : Int)
    (h1 : env.ssl_context_builder = .ok ()) (h2 : env.ssl_new = .ok ())
    (h3 : env.tcp_connect addr = .ok ()) (h4 : env.handshake = .ok ())
    (h5 : env.peer_certificate = some cert) (h6 : env.days_from_now = .ok now)
    (h7 : cert.public_key = .ok ()) :
    ∃ exp : SslExpiration, (SslExpiration.from_addr addr env).2 = .ok exp ∧
      exp.get_alt_names = (cert.subject_alt_names.getD []).filterMap GeneralName.dnsname := by
  have hs := from_addr_success addr env cert now h1 h2 h3 h4 h5 h6 h7
  exact ⟨_, congrArg Prod.snd hs, rfl⟩

theorem from_addr_alt_names_witness :
    ∃ exp : SslExpiration, (SslExpiration.from_addr "example.com:443" env_ok).2 = .ok exp ∧
      exp.get_alt_names = (sample_cert.subject_alt_names.getD []).filterMap GeneralName.dnsname :=
  from_addr_alt_names "example.com:443" env_ok sample_cert 1760227200
    rfl rfl rfl rfl rfl rfl rfl

/-! ### C5: certificate verification is disabled -/

/-- C5: whenever `from_addr` drives a TLS handshake, the context of the
session carries verify mode `SslVerifyMode::empty()`, for every address and
every environment. -/
theorem from_addr_handshake_verify_empty (addr : String) (env : NetEnv) (mode : Nat)
    (h : Event.handshake_driven mode ∈ (SslExpiration.from_addr addr env).1) :
    mode = SslVerifyMode.empty := by
  unfold SslExpiration.from_addr at h
  repeat' split at h
  all_goals simp_all

theorem from_addr_handshake_verify_empty_witness :
    (0 : Nat) = SslVerifyMode.empty :=
  from_addr_handshake_verify_empty "example.com:443" env_ok 0 (by decide)

/-! ### C6, C7: error kinds of the failure paths -/

/-- A concrete environment whose TLS handshake is rejected after a
successful TCP connection. -/
def env_handshake_fail : NetEnv :=
  { ssl_context_builder := .ok ()
    ssl_new := .ok ()
    tcp_connect := fun _ => .ok ()
    handshake := .error "sslv3 alert handshake failure"
    peer_certificate := none
    days_from_now := .ok 1760227200 }

/-- A concrete environment whose TCP connection is refused. -/
def env_tcp_fail : NetEnv :=
  { ssl_context_builder := .ok ()
    ssl_new := .ok ()
    tcp_connect := fun _ => .error "Connection refused (os error 111)"
    handshake := .ok ()
    peer_certificate := none
    days_from_now := .ok 1760227200 }

/-- A concrete environment whose handshake completes but whose session
presents no peer certificate. -/
def env_no_cert : NetEnv :=
  { ssl_context_builder := .ok ()
    ssl_new := .ok ()
    tcp_connect := fun _ => .ok ()
    handshake := .ok ()
    peer_certificate := none
    days_from_now := .ok 1760227200 }

/-- C6: a handshake failure after a successful TCP connection produces
`HandshakeError` carrying the diagnostic text, while a failed TCP
connection produces the distinct `IoError` kind. -/
theorem from_addr_handshake_error_kind (addr : String) (env env2 : NetEnv) (msg m : String)
    (h1 : env.ssl_context_builder = .ok ()) (h2 : env.ssl_new = .ok ())
    (h3 : env.tcp_connect addr = .ok ()) (h4 : env.handshake = .error msg)
    (g1 : env2.ssl_context_builder = .ok ()) (g2 : env2.ssl_new = .ok ())
    (g3 : env2.tcp_connect addr = .error m) :
    (SslExpiration.from_addr addr env).2 = .err (.HandshakeError msg) ∧
    (SslExpiration.from_addr addr env2).2 = .err (.IoError m) ∧
    ErrorKind.HandshakeError msg ≠ ErrorKind.IoError m := by
  refine ⟨?_, ?_, by simp⟩
  · unfold SslExpiration.from_addr
    simp only [h1, h2, h3, h4]
  · unfold SslExpiration.from_addr
    simp only [g1, g2, g3]

theorem from_addr_handshake_error_kind_witness :
    (SslExpiration.from_addr "example.com:443" env_handshake_fail).2 =
      .err (.HandshakeError "sslv3 alert handshake failure") ∧
    (SslExpiration.from_addr "example.com:443" env_tcp_fail).2 =
      .err (.IoError "Connection refused (os error 111)") ∧
    ErrorKind.HandshakeError "sslv3 alert handshake failure" ≠
      ErrorKind.IoError "Connection refused (os error 111)" :=
  from_addr_handshake_error_kind "example.com:443" env_handshake_fail env_tcp_fail
    "sslv3 alert handshake failure" "Connection refused (os error 111)"
    rfl rfl rfl rfl rfl rfl rfl

/-- C7: a completed handshake presenting no peer certificate makes
`from_addr` fail with the certificate-not-found error, realized by the
`Msg "Certificate not found"` kind, which is distinct from the I/O,
crypto-library and handshake kinds. -/
theorem from_addr_certificate_not_found (addr : String) (env : NetEnv)
    (h1 : env.ssl_context_builder = .ok ()) (h2 : env.ssl_new = .ok ())
    (h3 : env.tcp_connect addr = .ok ()) (h4 : env.handshake = .ok ())
    (h5 : env.peer_certificate = none) :
    (SslExpiration.from_addr addr env).2 = .err (.Msg "Certificate not found") ∧
    (∀ s t : String, ErrorKind.Msg s ≠ ErrorKind.IoError t ∧
      ErrorKind.Msg s ≠ ErrorKind.OpenSslErrorStack t ∧
      ErrorKind.Msg s ≠ ErrorKind.HandshakeError t) := by
  refine ⟨?_, by intro s t; refine ⟨by simp, by simp, by simp⟩⟩
  unfold SslExpiration.from_addr
  simp only [h1, h2, h3, h4, h5]

theorem from_addr_certificate_not_found_witness :
    (SslExpiration.from_addr "example.com:443" env_no_cert).2 =
      .err (.Msg "Certificate not found") ∧
    (∀ s t : String, ErrorKind.Msg s ≠ ErrorKind.IoError t ∧
      ErrorKind.Msg s ≠ ErrorKind.OpenSslErrorStack t ∧
      ErrorKind.Msg s ≠ ErrorKind.HandshakeError t) :=
  from_addr_certificate_not_found "example.com:443" env_no_cert rfl rfl rfl rfl rfl

/-! ### C8: the panic in the evaluation path -/

/-- A certificate the handshake layer accepts whose public-key extraction
fails (e.g. an unsupported public-key algorithm), so that
`cert.public_key()` returns `Err`. -/
def bad_key_cert : X509Cert :=
  { not_before := 1700000000
    not_after := 1792000000
    subject_alt_names := some [GeneralName.dnsName "gost.example"]
    public_key := .error "unsupported public key algorithm" }

/-- All external steps succeed and the peer presents `bad_key_cert`. -/
def env_bad_key : NetEnv :=
  { ssl_context_builder := .ok ()
    ssl_new := .ok ()
    tcp_connect := fun _ => .ok ()
    handshake := .ok ()
    peer_certificate := some bad_key_cert
    days_from_now := .ok 1760227200 }

/-- C8: the evaluation path of `from_addr` panics, rather than returning a
typed error, when `cert.public_key()` fails: `lib.rs` line 70 calls
`cert.public_key().unwrap()` on the certificate-evaluation path. -/
theorem from_addr_panics_on_bad_public_key :
    (SslExpiration.from_addr "example.com:443" env_bad_key).2 =
      Outcome.panicked "unsupported public key algorithm" := rfl

/-! ### C9: the domain-name entry point -/

/-- C9: for every domain string and every environment, `from_domain_name`
behaves identically to `from_addr` applied to the domain with ":443"
appended, trace included. -/
theorem from_domain_name_is_from_addr_443 (domain : String) (env : NetEnv) :
    SslExpiration.from_domain_name domain env =
      SslExpiration.from_addr (domain ++ ":443") env := rfl

/-! ### C10: the CLI exit status -/

/-- Does one per-domain outcome set the CLI exit code: a successful check of
a certificate that is expired or expires within 7 days. -/
def sets_exit_code : Outcome SslExpiration → Bool
  | .ok expiration => expiration.is_expired || decide (expiration.days ≤ 7)
  | .err _ => false
  | .panicked _ => false

theorem sets_exit_code_iff (r : Outcome SslExpiration) :
    sets_exit_code r = true ↔
      ∃ e : SslExpiration, r = Outcome.ok e ∧ (e.is_expired = true ∨ e.days ≤ 7) := by
  cases r <;> simp [sets_exit_code]

/-- The accumulator semantics of the domain loop of main.rs: if the loop
finishes, the final exit code is 1 when some outcome sets it, and the
initial code otherwise. -/
theorem main_loop_characterization (results : List (Outcome SslExpiration)) (acc code : Nat)
    (h : main_loop results acc = some code) :
    code = if results.any sets_exit_code then 1 else acc := by
  induction results generalizing acc with
  | nil =>
    simp only [main_loop] at h
    simp_all
  | cons r rs ih =>
    cases r with
    | panicked msg => simp [main_loop] at h
    | err e =>
      simp only [main_loop] at h
      have := ih acc h
      simp_all [sets_exit_code]
    | ok expiration =>
      simp only [main_loop] at h
      have hcons : (Outcome.ok expiration :: rs).any sets_exit_code =
          ((expiration.is_expired || decide (expiration.days ≤ 7)) ||
            rs.any sets_exit_code) := by
        simp [List.any_cons, sets_exit_code]
      by_cases hex : expiration.is_expired = true
      · rw [if_pos hex] at h
        rw [ih 1 h, hcons, hex]
        simp
      · rw [if_neg hex] at h
        have hex2 : expiration.is_expired = false := by
          rwa [Bool.not_eq_true] at hex
        by_cases hd : expiration.days ≤ 7
        · rw [if_pos hd] at h
          rw [ih 1 h, hcons, hex2, decide_eq_true hd]
          simp
        · rw [if_neg hd] at h
          rw [ih acc h, hcons, hex2, decide_eq_false hd]
          simp

/-- C10: whenever the CLI run reaches `exit`, the exit status is nonzero iff
at least one host's check succeeded and reported a certificate that is
expired or expires within 7 days; a check that returns an error never
contributes, so a run in which every check fails exits 0. -/
theorem main_exit_code_characterization (results : List (Outcome SslExpiration)) (code : Nat)
    (h : main_exit_code results = some code) :
    (code ≠ 0 ↔ ∃ e : SslExpiration, Outcome.ok e ∈ results ∧
        (e.is_expired = true ∨ e.days ≤ 7)) ∧
    ((∀ r ∈ results, ∃ k, r = Outcome.err k) → code = 0) := by
  have hc := main_loop_characterization results 0 code h
  constructor
  · rw [hc]
    by_cases ha : results.any sets_exit_code
    · simp only [if_pos ha]
      rw [List.any_eq_true] at ha
      obtain ⟨r, hr, htrig⟩ := ha
      obtain ⟨e, rfl, he⟩ := (sets_exit_code_iff r).1 htrig
      exact ⟨fun _ => ⟨e, hr, he⟩, fun _ => one_ne_zero⟩
    · simp only [if_neg ha]
      constructor
      · intro hne
        exact absurd rfl hne
      · rintro ⟨e, hmem, he⟩
        exact absurd (List.any_eq_true.2 ⟨_, hmem, (sets_exit_code_iff _).2 ⟨e, rfl, he⟩⟩) ha
  · intro hall
    rw [hc]
    have hfalse : results.any sets_exit_code = false := by
      rw [List.any_eq_false]
      intro r hr
      obtain ⟨k, rfl⟩ := hall r hr
      simp [sets_exit_code]
    rw [hfalse]
    simp

theorem main_exit_code_characterization_witness :
    ((1 : Nat) ≠ 0 ↔ ∃ e : SslExpiration,
        Outcome.ok e ∈ [Outcome.err (ErrorKind.IoError "Connection refused (os error 111)"),
                        Outcome.ok (SslExpiration.mk (-100) [])] ∧
        (e.is_expired = true ∨ e.days ≤ 7)) ∧
    ((∀ r ∈ [Outcome.err (ErrorKind.IoError "Connection refused (os error 111)"),
             Outcome.ok (SslExpiration.mk (-100) [])], ∃ k, r = Outcome.err k) →
      (1 : Nat) = 0) :=
  main_exit_code_characterization
    [Outcome.err (ErrorKind.IoError "Connection refused (os error 111)"),
     Outcome.ok (SslExpiration.mk (-100) [])] 1 rfl
